import Mathlib

/-!
Shallow embedding of the culinary-academy backend business logic
(enrollment, payment/webhook, schedule overlap) from
src/backend/app/{services,crud,domain,api}. Database rows are records in
lists; SQLAlchemy sessions become explicit state passing; Python
exceptions become an error sum type returned next to the (possibly
updated) state. All raises in the embedded functions happen before the
first commit in the source, so an error result carries the input state
unchanged, exactly as the source behaves.
-/

/-- Roles from domain/models/user.py (UserRole). -/
inductive UserRole where
  | student
  | instructor
  | admin
deriving DecidableEq, Repr

/-- Enrollment statuses from domain/models/enrollment.py (EnrollmentStatus). -/
inductive EnrollmentStatus where
  | pending
  | approved
  | rejected
  | completed
deriving DecidableEq, Repr

/-- Enrollment-side payment statuses from domain/models/enrollment.py (PaymentStatus). -/
inductive EnrollPayStatus where
  | pending
  | paid
  | refunded
  | failed
deriving DecidableEq, Repr

/-- Payment-side statuses from domain/models/payment.py (PaymentStatus). -/
inductive PaymentStatus where
  | pending
  | completed
  | failed
  | refunded
deriving DecidableEq, Repr

/-- Users table row (domain/models/user.py), restricted to the fields the
enrollment workflow reads. -/
structure User where
  id : Nat
  role : UserRole
  is_active : Bool := true
deriving DecidableEq, Repr

/-- Courses table row (domain/models/course.py), restricted to the fields the
enrollment and schedule workflows read. capacity is an Int because the
source stores a plain integer column it mutates. -/
structure Course where
  id : Nat
  capacity : Int
  is_active : Bool := true
deriving DecidableEq, Repr

/-- Enrollments table row (domain/models/enrollment.py). -/
structure Enrollment where
  id : Nat
  student_id : Nat
  course_id : Nat
  status : EnrollmentStatus := .pending
  payment_status : EnrollPayStatus := .pending
  notes : Option String := none
deriving DecidableEq, Repr

/-- Payments table row (domain/models/payment.py). amount is a rational
standing for the Python float amount column. -/
structure Payment where
  id : Nat
  enrollment_id : Nat
  amount : Rat
  transaction_id : Option String := none
  status : PaymentStatus := .pending
deriving DecidableEq, Repr

/-- Schedules table row (domain/models/schedule.py); start_time and end_time
are minutes since midnight standing for the time columns. -/
structure Schedule where
  id : Nat
  course_id : Nat
  day_of_week : Nat
  start_time : Nat
  end_time : Nat
  is_active : Bool := true
deriving DecidableEq, Repr

/-- The relational store: one list per table plus autoincrement counters. -/
structure DB where
  users : List User := []
  courses : List Course := []
  enrollments : List Enrollment := []
  payments : List Payment := []
  schedules : List Schedule := []
  next_enrollment_id : Nat := 1
  next_payment_id : Nat := 1
  next_schedule_id : Nat := 1
deriving DecidableEq, Repr

/-- Error kinds from app/core/exceptions used by the services:
NotFoundError and ValidationError, each carrying its detail string. -/
inductive AppError where
  | notFound (detail : String)
  | validation (detail : String)
deriving DecidableEq, Repr

/-- Boolean test for a ValidationError result. -/
def isValidation {α : Type} : Except AppError α → Bool
  | .error (.validation _) => true
  | _ => false

/-- Boolean test for a successful result. -/
def isOkResult {α : Type} : Except AppError α → Bool
  | .ok _ => true
  | _ => false

namespace crud_user

/-- CRUDBase.get specialized to users (crud/base.py). -/
def get (db : DB) (id : Nat) : Option User :=
  db.users.find? (fun u => u.id == id)

/-- Modelled from the spec: EnrollmentService.create_enrollment calls
crud_user.is_student (services/enrollment_service.py line 154) but CRUDUser
(crud/crud_user.py) defines no is_student method; the missing check is
modelled from the spec data model, role ∈ (student|instructor|admin), in
the shape of the sibling methods is_admin and is_instructor
(crud/crud_user.py lines 131 and 146): it tests role == student. -/
def is_student (u : User) : Bool :=
  u.role == UserRole.student

end crud_user

namespace crud_course

/-- CRUDBase.get specialized to courses (crud/base.py). -/
def get (db : DB) (id : Nat) : Option Course :=
  db.courses.find? (fun c => c.id == id)

/-- CRUDCourse.update_capacity (crud/crud_course.py lines 175-197): when the
course exists, set its capacity to max 0 (capacity + change); a missing
course leaves the store untouched. -/
def update_capacity (db : DB) (course_id : Nat) (change : Int) : DB :=
  match get db course_id with
  | none => db
  | some _ =>
      { db with
        courses := db.courses.map (fun c =>
          if c.id == course_id then { c with capacity := max 0 (c.capacity + change) } else c) }

end crud_course

/-- EnrollmentCreate schema (domain/schemas/enrollment.py): status and
payment_status default to pending. -/
structure EnrollmentCreate where
  student_id : Nat
  course_id : Nat
  notes : Option String := none
  status : EnrollmentStatus := .pending
  payment_status : EnrollPayStatus := .pending
deriving DecidableEq, Repr

/-- An EnrollmentCreate built from student and course ids alone, as the
claims write create_enrollment(student_id, course_id): every schema
default applies. -/
def mkEnrollmentCreate (student_id course_id : Nat) : EnrollmentCreate :=
  { student_id := student_id, course_id := course_id }

namespace crud_enrollment

/-- CRUDBase.get specialized to enrollments (crud/base.py). -/
def get (db : DB) (id : Nat) : Option Enrollment :=
  db.enrollments.find? (fun e => e.id == id)

/-- CRUDEnrollment.check_student_enrolled (crud/crud_enrollment.py lines
154-181): true when any enrollment row matches both ids, in any status. -/
def check_student_enrolled (db : DB) (student_id course_id : Nat) : Bool :=
  db.enrollments.any (fun e => e.student_id == student_id && e.course_id == course_id)

/-- CRUDBase.create specialized to enrollments: insert a fresh row built
from the schema object and return it. -/
def create (db : DB) (obj_in : EnrollmentCreate) : Enrollment × DB :=
  let e : Enrollment :=
    { id := db.next_enrollment_id
      student_id := obj_in.student_id
      course_id := obj_in.course_id
      status := obj_in.status
      payment_status := obj_in.payment_status
      notes := obj_in.notes }
  (e, { db with enrollments := db.enrollments ++ [e],
                next_enrollment_id := db.next_enrollment_id + 1 })

/-- CRUDEnrollment.update_status (crud/crud_enrollment.py lines 183-204),
with the mutated ORM object identified by its primary key. -/
def update_status (db : DB) (id : Nat) (status : EnrollmentStatus) : DB :=
  { db with enrollments := db.enrollments.map (fun e =>
      if e.id == id then { e with status := status } else e) }

/-- CRUDEnrollment.update_payment_status (crud/crud_enrollment.py lines
206-227), with the mutated ORM object identified by its primary key. -/
def update_payment_status (db : DB) (id : Nat) (payment_status : EnrollPayStatus) : DB :=
  { db with enrollments := db.enrollments.map (fun e =>
      if e.id == id then { e with payment_status := payment_status } else e) }

/-- CRUDBase.update applied to the notes field only, as
EnrollmentService.reject_enrollment uses it. -/
def update_notes (db : DB) (id : Nat) (notes : String) : DB :=
  { db with enrollments := db.enrollments.map (fun e =>
      if e.id == id then { e with notes := some notes } else e) }

end crud_enrollment

/-- PaymentCreate schema (domain/schemas/payment.py lines 45-64): status
defaults to pending; the amount validator is embedded separately below as
payment_create_validate. -/
structure PaymentCreate where
  enrollment_id : Nat
  amount : Rat
  transaction_id : Option String := none
  notes : Option String := none
  status : PaymentStatus := .pending
deriving DecidableEq, Repr

/-- A PaymentCreate built from enrollment id and amount alone, as the claims
write create_payment(enrollment_id, amount): every schema default applies. -/
def mkPaymentCreate (enrollment_id : Nat) (amount : Rat) : PaymentCreate :=
  { enrollment_id := enrollment_id, amount := amount }

/-- Pydantic validation of PaymentCreate (domain/schemas/payment.py lines
40 and 54-64): amount must be strictly positive, otherwise the request is
rejected before any service code runs. -/
def payment_create_validate (obj : PaymentCreate) : Except AppError PaymentCreate :=
  if obj.amount ≤ 0 then .error (.validation "Amount must be positive")
  else .ok obj

namespace crud_payment

/-- CRUDBase.get specialized to payments (crud/base.py). -/
def get (db : DB) (id : Nat) : Option Payment :=
  db.payments.find? (fun p => p.id == id)

/-- CRUDPayment.get_by_transaction_id (crud/crud_payment.py lines 62-82):
first payment whose transaction_id column equals the argument; rows with a
NULL transaction_id never match. -/
def get_by_transaction_id (db : DB) (transaction_id : String) : Option Payment :=
  db.payments.find? (fun p => p.transaction_id == some transaction_id)

/-- CRUDBase.create specialized to payments: insert a fresh row built from
the schema object and return it. -/
def create (db : DB) (obj_in : PaymentCreate) : Payment × DB :=
  let p : Payment :=
    { id := db.next_payment_id
      enrollment_id := obj_in.enrollment_id
      amount := obj_in.amount
      transaction_id := obj_in.transaction_id
      status := obj_in.status }
  (p, { db with payments := db.payments ++ [p],
                next_payment_id := db.next_payment_id + 1 })

/-- CRUDPayment.update_status (crud/crud_payment.py lines 141-162), with the
mutated ORM object identified by its primary key. -/
def update_status (db : DB) (id : Nat) (status : PaymentStatus) : DB :=
  { db with payments := db.payments.map (fun p =>
      if p.id == id then { p with status := status } else p) }

end crud_payment

/-- ScheduleCreate schema (domain/schemas/schedule.py), restricted to the
fields the overlap check reads. -/
structure ScheduleCreate where
  course_id : Nat
  day_of_week : Nat
  start_time : Nat
  end_time : Nat
  is_active : Bool := true
deriving DecidableEq, Repr

/-- ScheduleUpdate schema (domain/schemas/schedule.py): each field optional,
restricted to the fields the overlap check reads. -/
structure ScheduleUpdate where
  day_of_week : Option Nat := none
  start_time : Option Nat := none
  end_time : Option Nat := none
deriving DecidableEq, Repr

namespace crud_schedule

/-- CRUDBase.get specialized to schedules (crud/base.py). -/
def get (db : DB) (id : Nat) : Option Schedule :=
  db.schedules.find? (fun s => s.id == id)

/-- CRUDSchedule.get_overlapping_schedules (crud/crud_schedule.py lines
127-167): active schedules on the same day_of_week with start_time strictly
before the proposed end_time and end_time strictly after the proposed
start_time, minus the excluded id when one is given. -/
def get_overlapping_schedules (db : DB) (day_of_week : Nat)
    (start_time end_time : Nat) (exclude_id : Option Nat) : List Schedule :=
  db.schedules.filter (fun s =>
    s.day_of_week == day_of_week &&
    s.start_time < end_time &&
    s.end_time > start_time &&
    s.is_active == true &&
    (match exclude_id with
     | none => true
     | some i => s.id != i))

/-- CRUDBase.create specialized to schedules. -/
def create (db : DB) (obj_in : ScheduleCreate) : Schedule × DB :=
  let s : Schedule :=
    { id := db.next_schedule_id
      course_id := obj_in.course_id
      day_of_week := obj_in.day_of_week
      start_time := obj_in.start_time
      end_time := obj_in.end_time
      is_active := obj_in.is_active }
  (s, { db with schedules := db.schedules ++ [s],
                next_schedule_id := db.next_schedule_id + 1 })

/-- CRUDBase.update specialized to schedules: apply each provided field of
the update object to the row with the given id. -/
def update (db : DB) (id : Nat) (obj_in : ScheduleUpdate) : DB :=
  { db with schedules := db.schedules.map (fun s =>
      if s.id == id then
        { s with
          day_of_week := obj_in.day_of_week.getD s.day_of_week
          start_time := obj_in.start_time.getD s.start_time
          end_time := obj_in.end_time.getD s.end_time }
      else s) }

end crud_schedule

namespace enrollment_service

/-- EnrollmentService.create_enrollment (services/enrollment_service.py
lines 127-183): validate student, role, course, activity, duplicate
enrollment and remaining capacity in that order, then insert the row and
decrement the stored course capacity by one. An error leaves the store
unchanged, as every raise in the source precedes the first commit. -/
def create_enrollment (db : DB) (obj_in : EnrollmentCreate) :
    Except AppError Enrollment × DB :=
  match crud_user.get db obj_in.student_id with
  | none => (.error (.notFound "Student not found"), db)
  | some student =>
    if !(crud_user.is_student student) then
      (.error (.validation "User is not a student"), db)
    else
      match crud_course.get db obj_in.course_id with
      | none => (.error (.notFound "Course not found"), db)
      | some course =>
        if !course.is_active then
          (.error (.validation "Course is not active"), db)
        else if crud_enrollment.check_student_enrolled db obj_in.student_id obj_in.course_id then
          (.error (.validation "Student is already enrolled in this course"), db)
        else if course.capacity ≤ 0 then
          (.error (.validation "Course is full"), db)
        else
          let (e, db1) := crud_enrollment.create db obj_in
          let db2 := crud_course.update_capacity db1 obj_in.course_id (-1)
          (.ok e, db2)

/-- EnrollmentService.approve_enrollment (services/enrollment_service.py
lines 213-241): only a pending enrollment may be approved. -/
def approve_enrollment (db : DB) (id : Nat) : Except AppError Enrollment × DB :=
  match crud_enrollment.get db id with
  | none => (.error (.notFound "Enrollment not found"), db)
  | some e =>
    if e.status != EnrollmentStatus.pending then
      (.error (.validation "Only pending enrollments can be approved"), db)
    else
      (.ok { e with status := .approved }, crud_enrollment.update_status db id .approved)

/-- Notes text built by EnrollmentService.reject_enrollment line 276, with
the Python truthiness of the existing notes string made explicit. -/
def rejection_notes (old : Option String) (reason : String) : String :=
  match old with
  | some n => if n == "" then "Rejection reason: " ++ reason
              else n ++ "\nRejection reason: " ++ reason
  | none => "Rejection reason: " ++ reason

/-- EnrollmentService.reject_enrollment (services/enrollment_service.py
lines 243-282): only a pending enrollment may be rejected; the status is
set to rejected, a non-empty reason is appended to the notes, and the
course capacity is restored by one. -/
def reject_enrollment (db : DB) (id : Nat) (reason : Option String) :
    Except AppError Enrollment × DB :=
  match crud_enrollment.get db id with
  | none => (.error (.notFound "Enrollment not found"), db)
  | some e =>
    if e.status != EnrollmentStatus.pending then
      (.error (.validation "Only pending enrollments can be rejected"), db)
    else
      let e1 : Enrollment := { e with status := .rejected }
      let db1 := crud_enrollment.update_status db id .rejected
      let (e2, db2) :=
        match reason with
        | none => (e1, db1)
        | some r =>
          if r == "" then (e1, db1)
          else
            let notes := rejection_notes e1.notes r
            ({ e1 with notes := some notes }, crud_enrollment.update_notes db1 id notes)
      (.ok e2, crud_course.update_capacity db2 e.course_id 1)

/-- EnrollmentService.cancel_enrollment (services/enrollment_service.py
lines 284-318): completed and rejected enrollments cannot be cancelled;
otherwise the status becomes rejected and the course capacity is restored
by one. -/
def cancel_enrollment (db : DB) (id : Nat) : Except AppError Enrollment × DB :=
  match crud_enrollment.get db id with
  | none => (.error (.notFound "Enrollment not found"), db)
  | some e =>
    if e.status == EnrollmentStatus.completed || e.status == EnrollmentStatus.rejected then
      (.error (.validation "Cannot cancel completed or rejected enrollments"), db)
    else
      let db1 := crud_enrollment.update_status db id .rejected
      (.ok { e with status := .rejected }, crud_course.update_capacity db1 e.course_id 1)

/-- EnrollmentService.complete_enrollment (services/enrollment_service.py
lines 320-348): only an approved enrollment may be completed. -/
def complete_enrollment (db : DB) (id : Nat) : Except AppError Enrollment × DB :=
  match crud_enrollment.get db id with
  | none => (.error (.notFound "Enrollment not found"), db)
  | some e =>
    if e.status != EnrollmentStatus.approved then
      (.error (.validation "Only approved enrollments can be completed"), db)
    else
      (.ok { e with status := .completed }, crud_enrollment.update_status db id .completed)

end enrollment_service

namespace payment_service

/-- PaymentService.create_payment (services/payment_service.py lines
75-100): the enrollment must exist, then the row is inserted via the
payment CRUD. -/
def create_payment (db : DB) (obj_in : PaymentCreate) : Except AppError Payment × DB :=
  match crud_enrollment.get db obj_in.enrollment_id with
  | none => (.error (.notFound "Enrollment not found"), db)
  | some _ =>
    let (p, db1) := crud_payment.create db obj_in
    (.ok p, db1)

/-- Request-level create_payment as the claims write it: Pydantic validates
the PaymentCreate body (amount strictly positive) before
PaymentService.create_payment runs. -/
def create_payment_checked (db : DB) (obj_in : PaymentCreate) :
    Except AppError Payment × DB :=
  match payment_create_validate obj_in with
  | .error e => (.error e, db)
  | .ok o => create_payment db o

/-- PaymentService.process_payment_webhook (services/payment_service.py
lines 163-205). The payload transaction id is payment_intent.get("id"),
an absent or empty string being falsy in the Python guard. On a match the
payment status becomes completed and, when the owning enrollment row
exists, its payment_status becomes paid. -/
def process_payment_webhook (db : DB) (event_type : String)
    (payment_intent_id : Option String) : Option Payment × DB :=
  if event_type != "payment_intent.succeeded" then (none, db)
  else
    match payment_intent_id with
    | none => (none, db)
    | some tid =>
      if tid == "" then (none, db)
      else
        match crud_payment.get_by_transaction_id db tid with
        | none => (none, db)
        | some p =>
          let db1 := crud_payment.update_status db p.id .completed
          let db2 :=
            match crud_enrollment.get db1 p.enrollment_id with
            | some e => crud_enrollment.update_payment_status db1 e.id .paid
            | none => db1
          (some { p with status := .completed }, db2)

/-- PaymentService.refund_payment (services/payment_service.py lines
207-258). The Stripe refund call is embedded as the gateway argument,
mapping the transaction id to either success or an error message; an
exception from the gateway becomes ValidationError carrying the message
Refund failed followed by the gateway text, and a missing or empty transaction id (falsy in the Python guard)
is rejected before the gateway is consulted. -/
def refund_payment (db : DB) (payment_id : Nat)
    (gateway : String → Except String Unit) : Except AppError Payment × DB :=
  match crud_payment.get db payment_id with
  | none => (.error (.notFound "Payment not found"), db)
  | some p =>
    if p.status != PaymentStatus.completed then
      (.error (.validation "Only completed payments can be refunded"), db)
    else
      match p.transaction_id with
      | none => (.error (.validation "Payment has no transaction ID"), db)
      | some tid =>
        if tid == "" then
          (.error (.validation "Payment has no transaction ID"), db)
        else
          match gateway tid with
          | .error msg => (.error (.validation ("Refund failed: " ++ msg)), db)
          | .ok _ =>
            let db1 := crud_payment.update_status db payment_id .refunded
            let db2 :=
              match crud_enrollment.get db1 p.enrollment_id with
              | some e => crud_enrollment.update_payment_status db1 e.id .refunded
              | none => db1
            (.ok { p with status := .refunded }, db2)

end payment_service

/-- HTTP response of the webhook endpoint: the declared status code plus
the status field of the returned JSON object. -/
structure WebhookResponse where
  status_code : Nat
  status : String
deriving DecidableEq, Repr

/-- webhook_received (api/v1/endpoints/payments.py lines 378-420): the
payload event type and payment-intent id are extracted, processing runs
inside a try block, and the endpoint answers status success with HTTP 200
on every path, the except branch included. internal_failure injects an
exception raised during processing, which the bare except swallows. -/
def webhook_received (db : DB) (event_type : String)
    (payment_intent_id : Option String) (internal_failure : Bool) :
    WebhookResponse × DB :=
  if internal_failure then ({ status_code := 200, status := "success" }, db)
  else
    let (_, db1) := payment_service.process_payment_webhook db event_type payment_intent_id
    ({ status_code := 200, status := "success" }, db1)

namespace schedule_service

/-- ScheduleService.create_schedule (services/schedule_service.py lines
70-108): the course must exist and the proposed slot must not overlap any
active schedule on the same day. -/
def create_schedule (db : DB) (obj_in : ScheduleCreate) :
    Except AppError Schedule × DB :=
  match crud_course.get db obj_in.course_id with
  | none => (.error (.notFound "Course not found"), db)
  | some _ =>
    let overlapping := crud_schedule.get_overlapping_schedules db
      obj_in.day_of_week obj_in.start_time obj_in.end_time none
    if overlapping ≠ [] then
      (.error (.validation "Schedule overlaps with existing schedule"), db)
    else
      let (s, db1) := crud_schedule.create db obj_in
      (.ok s, db1)

/-- ScheduleService.update_schedule (services/schedule_service.py lines
110-162): when any of day and times is updated, the effective slot is
checked for overlaps with every other schedule, the updated row excluded
by its id. -/
def update_schedule (db : DB) (id : Nat) (obj_in : ScheduleUpdate) :
    Except AppError Schedule × DB :=
  match crud_schedule.get db id with
  | none => (.error (.notFound "Schedule not found"), db)
  | some sch =>
    if obj_in.day_of_week.isSome || obj_in.start_time.isSome || obj_in.end_time.isSome then
      let day_of_week := obj_in.day_of_week.getD sch.day_of_week
      let start_time := obj_in.start_time.getD sch.start_time
      let end_time := obj_in.end_time.getD sch.end_time
      let overlapping := crud_schedule.get_overlapping_schedules db
        day_of_week start_time end_time (some id)
      if overlapping ≠ [] then
        (.error (.validation "Schedule would overlap with existing schedule"), db)
      else
        let db1 := crud_schedule.update db id obj_in
        (.ok { sch with day_of_week := day_of_week,
                        start_time := start_time, end_time := end_time }, db1)
    else
      (.ok sch, crud_schedule.update db id obj_in)

end schedule_service

/-- Count of the enrollments of a course whose status is pending or approved:
the quantity the capacity claim compares against course.capacity. -/
def pending_or_approved_count (db : DB) (course_id : Nat) : Nat :=
  (db.enrollments.filter (fun e => e.course_id == course_id &&
    (e.status == EnrollmentStatus.pending || e.status == EnrollmentStatus.approved))).length

/-- Invariant of the spec: at most one enrollment row per
(student, course) pair. -/
def at_most_one_per_pair (db : DB) : Prop :=
  db.enrollments.Pairwise
    (fun a b => ¬(a.student_id = b.student_id ∧ a.course_id = b.course_id))

/-- Every stored course has a non-negative capacity. -/
def courses_nonneg (db : DB) : Prop :=
  ∀ c ∈ db.courses, 0 ≤ c.capacity

/-- Capacity-touching operations of the enrollment service: enroll runs
update_capacity with change -1, reject and cancel with change +1. -/
inductive EnrollOp where
  | enroll (student_id course_id : Nat)
  | reject (id : Nat) (reason : Option String)
  | cancel (id : Nat)
deriving DecidableEq, Repr

/-- State reached by one enrollment-service operation; a raised error
leaves the store as it was. -/
def run_op (db : DB) : EnrollOp → DB
  | .enroll sid cid => (enrollment_service.create_enrollment db (mkEnrollmentCreate sid cid)).2
  | .reject id r => (enrollment_service.reject_enrollment db id r).2
  | .cancel id => (enrollment_service.cancel_enrollment db id).2

/-- State reached by a sequence of enrollment-service operations. -/
def run_ops (db : DB) : List EnrollOp → DB
  | [] => db
  | op :: rest => run_ops (run_op db op) rest

/-! Concrete stores used to instantiate and to refute claims. -/

/-- Course with one remaining seat. -/
def c1course : Course := { id := 1, capacity := 1 }

/-- Store where course 1 has one pending enrollment and a stored capacity
of 1, so the pending/approved count already equals the capacity column. -/
def c1db : DB :=
  { users := [{ id := 1, role := .student }, { id := 2, role := .student }]
    courses := [c1course]
    enrollments := [{ id := 1, student_id := 1, course_id := 1 }]
    next_enrollment_id := 2 }

/-- Full course: stored capacity exhausted. -/
def c1wcourse : Course := { id := 7, capacity := 0 }

/-- Store with student 1 and full course 7. -/
def c1wdb : DB :=
  { users := [{ id := 1, role := .student }]
    courses := [c1wcourse] }

/-- Payment whose transaction_id column holds the empty string. -/
def c2pay : Payment :=
  { id := 1, enrollment_id := 1, amount := 100, transaction_id := some "" }

/-- Store holding c2pay and its enrollment. -/
def c2db : DB :=
  { enrollments := [{ id := 1, student_id := 1, course_id := 1 }]
    payments := [c2pay]
    next_enrollment_id := 2, next_payment_id := 2 }

/-- Pending payment carrying the gateway intent id pi_1. -/
def c2wpay : Payment :=
  { id := 1, enrollment_id := 1, amount := 100, transaction_id := some "pi_1" }

/-- Enrollment owning c2wpay. -/
def c2wenr : Enrollment := { id := 1, student_id := 1, course_id := 1 }

/-- Store holding c2wpay and its enrollment. -/
def c2wdb : DB :=
  { enrollments := [c2wenr]
    payments := [c2wpay]
    next_enrollment_id := 2, next_payment_id := 2 }

/-- Completed payment with no transaction id. -/
def c3pay : Payment :=
  { id := 1, enrollment_id := 1, amount := 100, transaction_id := none,
    status := .completed }

/-- Store holding c3pay. -/
def c3db : DB :=
  { enrollments := [{ id := 1, student_id := 1, course_id := 1, payment_status := .paid }]
    payments := [c3pay]
    next_enrollment_id := 2, next_payment_id := 2 }

/-- Completed payment carrying the gateway intent id pi_9. -/
def c3wpay : Payment :=
  { id := 1, enrollment_id := 1, amount := 100, transaction_id := some "pi_9",
    status := .completed }

/-- Enrollment owning c3wpay, already paid. -/
def c3wenr : Enrollment :=
  { id := 1, student_id := 1, course_id := 1, payment_status := .paid }

/-- Store holding c3wpay and its enrollment. -/
def c3wdb : DB :=
  { enrollments := [c3wenr]
    payments := [c3wpay]
    next_enrollment_id := 2, next_payment_id := 2 }

/-- Active schedule on day 1 from minute 540 to minute 600, that is
9:00 to 10:00. -/
def c4sch : Schedule :=
  { id := 1, course_id := 1, day_of_week := 1, start_time := 540, end_time := 600 }

/-- Store with course 1 and the 9:00-10:00 schedule. -/
def c4db : DB :=
  { courses := [{ id := 1, capacity := 10 }]
    schedules := [c4sch]
    next_schedule_id := 2 }

/-- Proposed 9:30-10:30 slot on the same day. -/
def c4obj : ScheduleCreate :=
  { course_id := 1, day_of_week := 1, start_time := 570, end_time := 630 }

/-- Proposed 10:00-11:00 slot on the same day. -/
def c4obj2 : ScheduleCreate :=
  { course_id := 1, day_of_week := 1, start_time := 600, end_time := 660 }

/-- Course with five remaining seats. -/
def c5course : Course := { id := 1, capacity := 5 }

/-- Store with student 1 and course 1. -/
def c5db : DB :=
  { users := [{ id := 1, role := .student }]
    courses := [c5course] }

/-- Result of enrolling student 1 in course 1 of c5db. -/
def c5res : Except AppError Enrollment × DB :=
  enrollment_service.create_enrollment c5db (mkEnrollmentCreate 1 1)

/-- Enrollment row created in c5db. -/
def c5e : Enrollment :=
  match c5res.1 with
  | .ok e => e
  | .error _ => { id := 0, student_id := 0, course_id := 0 }

/-- Store after enrolling student 1 in course 1 of c5db. -/
def c5db2 : DB := c5res.2

/-- Completed enrollment, a terminal state. -/
def c6e : Enrollment := { id := 1, student_id := 1, course_id := 1, status := .completed }

/-- Store holding the completed enrollment c6e. -/
def c6db : DB :=
  { users := [{ id := 1, role := .student }]
    courses := [{ id := 1, capacity := 3 }]
    enrollments := [c6e]
    next_enrollment_id := 2 }

/-- Approved enrollment. -/
def c6ae : Enrollment := { id := 1, student_id := 1, course_id := 1, status := .approved }

/-- Store holding the approved enrollment c6ae. -/
def c6adb : DB :=
  { users := [{ id := 1, role := .student }]
    courses := [{ id := 1, capacity := 3 }]
    enrollments := [c6ae]
    next_enrollment_id := 2 }

/-- Store where student 1 already has a rejected enrollment in course 1. -/
def c7db : DB :=
  { users := [{ id := 1, role := .student }]
    courses := [{ id := 1, capacity := 5 }]
    enrollments := [{ id := 1, student_id := 1, course_id := 1, status := .rejected }]
    next_enrollment_id := 2 }

/-- Store with a single enrollment awaiting payment. -/
def c9db : DB :=
  { users := [{ id := 1, role := .student }]
    courses := [{ id := 1, capacity := 5 }]
    enrollments := [{ id := 1, student_id := 1, course_id := 1 }]
    next_enrollment_id := 2 }

/-- Store with one course of capacity 3 and one student. -/
def c10db : DB :=
  { users := [{ id := 1, role := .student }]
    courses := [{ id := 1, capacity := 3 }] }

/-- Enroll then cancel, exercising both capacity changes. -/
def c10ops : List EnrollOp := [.enroll 1 1, .cancel 1]
/-! Helper lemmas about the list-based store. -/

/-- Updating exactly the rows with a given key commutes with looking the
key up: the lookup of the updated list is the updated lookup. -/
theorem find?_map_key_update {α : Type} (key : α → Nat) (id : Nat) (f : α → α)
    (hf : ∀ x, key (f x) = key x) :
    ∀ l : List α,
      (l.map (fun x => if key x == id then f x else x)).find? (fun x => key x == id)
        = (l.find? (fun x => key x == id)).map f
  | [] => rfl
  | a :: t => by
    by_cases h : (key a == id) = true
    · have hfa : (key (f a) == id) = true := by rw [hf]; exact h
      rw [List.map_cons,
        if_pos h,
        @List.find?_cons_of_pos _ (fun x => key x == id) (f a) _ hfa,
        @List.find?_cons_of_pos _ (fun x => key x == id) a t h]
      rfl
    · rw [List.map_cons,
        if_neg h,
        @List.find?_cons_of_neg _ (fun x => key x == id) a _ (by simpa using h),
        @List.find?_cons_of_neg _ (fun x => key x == id) a t (by simpa using h)]
      exact find?_map_key_update key id f hf t

/-- Row lookup after CRUDPayment.update_status. -/
theorem get_payment_update_status (db : DB) (pid : Nat) (st : PaymentStatus)
    (p : Payment) (h : crud_payment.get db pid = some p) :
    crud_payment.get (crud_payment.update_status db pid st) pid =
      some { p with status := st } := by
  unfold crud_payment.get at h ⊢
  unfold crud_payment.update_status
  dsimp only
  rw [find?_map_key_update (fun q : Payment => q.id) pid
    (fun q => { q with status := st }) (fun _ => rfl) db.payments, h]
  rfl

/-- Row lookup after CRUDEnrollment.update_payment_status. -/
theorem get_enrollment_update_payment_status (db : DB) (eid : Nat)
    (st : EnrollPayStatus) (e : Enrollment)
    (h : crud_enrollment.get db eid = some e) :
    crud_enrollment.get (crud_enrollment.update_payment_status db eid st) eid =
      some { e with payment_status := st } := by
  unfold crud_enrollment.get at h ⊢
  unfold crud_enrollment.update_payment_status
  dsimp only
  rw [find?_map_key_update (fun q : Enrollment => q.id) eid
    (fun q => { q with payment_status := st }) (fun _ => rfl) db.enrollments, h]
  rfl

/-- Row lookup after CRUDEnrollment.update_status. -/
theorem get_enrollment_update_status (db : DB) (eid : Nat)
    (st : EnrollmentStatus) (e : Enrollment)
    (h : crud_enrollment.get db eid = some e) :
    crud_enrollment.get (crud_enrollment.update_status db eid st) eid =
      some { e with status := st } := by
  unfold crud_enrollment.get at h ⊢
  unfold crud_enrollment.update_status
  dsimp only
  rw [find?_map_key_update (fun q : Enrollment => q.id) eid
    (fun q => { q with status := st }) (fun _ => rfl) db.enrollments, h]
  rfl

/-- Row lookup after CRUDCourse.update_capacity, when the course exists. -/
theorem get_course_update_capacity (db : DB) (cid : Nat) (change : Int)
    (c : Course) (h : crud_course.get db cid = some c) :
    crud_course.get (crud_course.update_capacity db cid change) cid =
      some { c with capacity := max 0 (c.capacity + change) } := by
  unfold crud_course.update_capacity
  rw [h]
  unfold crud_course.get at h ⊢
  dsimp only
  rw [find?_map_key_update (fun q : Course => q.id) cid
    (fun q => { q with capacity := max 0 (q.capacity + change) }) (fun _ => rfl) db.courses, h]
  rfl

/-- CRUDCourse.update_capacity never touches the enrollments table. -/
theorem update_capacity_enrollments (db : DB) (cid : Nat) (change : Int) :
    (crud_course.update_capacity db cid change).enrollments = db.enrollments := by
  unfold crud_course.update_capacity
  cases crud_course.get db cid <;> rfl

/-- CRUDCourse.update_capacity keeps every stored capacity non-negative
when every stored capacity was. -/
theorem update_capacity_courses_nonneg (db : DB) (cid : Nat) (change : Int)
    (h : courses_nonneg db) : courses_nonneg (crud_course.update_capacity db cid change) := by
  unfold courses_nonneg at h ⊢
  unfold crud_course.update_capacity
  cases crud_course.get db cid with
  | none => exact h
  | some _ =>
    intro c hc
    dsimp only at hc
    rw [List.mem_map] at hc
    obtain ⟨a, ha, rfl⟩ := hc
    by_cases hid : (a.id == cid) = true
    · rw [if_pos hid]
      exact le_max_left _ _
    · rw [if_neg hid]
      exact h a ha

/-- C8: for every webhook payload, the event type, payment-intent id and
any injected internal processing exception included, the webhook endpoint
answers the success body with HTTP 200 and never surfaces an error to the
gateway. -/
theorem c8_webhook_always_success (db : DB) (event_type : String)
    (payment_intent_id : Option String) (internal_failure : Bool) :
    (webhook_received db event_type payment_intent_id internal_failure).1 =
      { status_code := 200, status := "success" } := by
  unfold webhook_received
  cases internal_failure <;> simp

/-- C4: a schedule is reported as overlapping a proposed slot exactly when
it is an active stored schedule on the same day_of_week with s2 < e1 and
s1 < e2 (and is not the excluded id); on day 1 the slot 9:00-10:00
overlaps 9:30-10:30 but not 10:00-11:00; create_schedule raises
Validation exactly when an overlap exists, and update_schedule runs the
check with the updated schedule id excluded from the comparison set. -/
theorem c4_schedule_overlap :
    (∀ (db : DB) (day st en : Nat) (ex : Option Nat) (sc : Schedule),
      sc ∈ crud_schedule.get_overlapping_schedules db day st en ex ↔
        (sc ∈ db.schedules ∧ sc.day_of_week = day ∧ sc.start_time < en ∧
         st < sc.end_time ∧ sc.is_active = true ∧ ∀ i, ex = some i → sc.id ≠ i)) ∧
    (crud_schedule.get_overlapping_schedules c4db 1 570 630 none = [c4sch] ∧
     crud_schedule.get_overlapping_schedules c4db 1 600 660 none = []) ∧
    (∀ (db : DB) (obj : ScheduleCreate) (course : Course),
      crud_course.get db obj.course_id = some course →
      (isValidation (schedule_service.create_schedule db obj).1 = true ↔
        crud_schedule.get_overlapping_schedules db obj.day_of_week obj.start_time
          obj.end_time none ≠ [])) ∧
    (∀ (db : DB) (id : Nat) (obj : ScheduleUpdate) (sch : Schedule),
      crud_schedule.get db id = some sch →
      (obj.day_of_week.isSome ∨ obj.start_time.isSome ∨ obj.end_time.isSome) →
      (isValidation (schedule_service.update_schedule db id obj).1 = true ↔
        crud_schedule.get_overlapping_schedules db (obj.day_of_week.getD sch.day_of_week)
          (obj.start_time.getD sch.start_time) (obj.end_time.getD sch.end_time)
          (some id) ≠ [])) := by
  refine ⟨?_, ⟨by decide, by decide⟩, ?_, ?_⟩
  · intro db day st en ex sc
    unfold crud_schedule.get_overlapping_schedules
    rw [List.mem_filter]
    cases ex <;> simp [and_assoc, bne_iff_ne]
  · intro db obj course h
    unfold schedule_service.create_schedule
    rw [h]
    by_cases hov : crud_schedule.get_overlapping_schedules db obj.day_of_week
        obj.start_time obj.end_time none ≠ []
    · simp [hov, isValidation]
    · simp [hov, isValidation]
  · intro db id obj sch h hsome
    unfold schedule_service.update_schedule
    rw [h]
    dsimp only
    have hcond : (obj.day_of_week.isSome || obj.start_time.isSome || obj.end_time.isSome) = true := by
      rcases hsome with h1 | h1 | h1 <;> simp [h1]
    rw [if_pos hcond]
    by_cases hov : crud_schedule.get_overlapping_schedules db
        (obj.day_of_week.getD sch.day_of_week) (obj.start_time.getD sch.start_time)
        (obj.end_time.getD sch.end_time) (some id) ≠ []
    · simp [hov, isValidation]
    · simp [hov, isValidation]

/-- Witness for C4: the 9:30-10:30 proposal against the stored 9:00-10:00
schedule on day 1, and an update of that schedule excluding its own id. -/
theorem c4_schedule_overlap_witness :
    (c4sch ∈ crud_schedule.get_overlapping_schedules c4db 1 570 630 none ↔
      (c4sch ∈ c4db.schedules ∧ c4sch.day_of_week = 1 ∧ c4sch.start_time < 630 ∧
       570 < c4sch.end_time ∧ c4sch.is_active = true ∧ ∀ i, (none : Option Nat) = some i → c4sch.id ≠ i)) ∧
    crud_course.get c4db c4obj.course_id = some { id := 1, capacity := 10 } ∧
    (isValidation (schedule_service.create_schedule c4db c4obj).1 = true ↔
      crud_schedule.get_overlapping_schedules c4db 1 570 630 none ≠ []) ∧
    crud_schedule.get c4db 1 = some c4sch ∧
    (isValidation (schedule_service.update_schedule c4db 1 { start_time := some 570 }).1 = true ↔
      crud_schedule.get_overlapping_schedules c4db 1 570 600 (some 1) ≠ []) :=
  ⟨c4_schedule_overlap.1 c4db 1 570 630 none c4sch,
   rfl,
   c4_schedule_overlap.2.2.1 c4db c4obj { id := 1, capacity := 10 } rfl,
   rfl,
   c4_schedule_overlap.2.2.2 c4db 1 { start_time := some 570 } c4sch rfl
     (Or.inr (Or.inl rfl))⟩

/-- C2 counterexample: a stored payment whose transaction_id column holds
the empty string, and a succeeded-event payload whose transaction id is
that same empty string. A payment with the payload transaction id exists,
yet the handler returns None and mutates nothing, because the Python
guard treats the empty string like a missing id. -/
theorem c2_webhook_counterexample :
    crud_payment.get_by_transaction_id c2db "" = some c2pay ∧
    c2pay.status ≠ PaymentStatus.completed ∧
    payment_service.process_payment_webhook c2db "payment_intent.succeeded" (some "") =
      (none, c2db) :=
  ⟨rfl, by decide, rfl⟩

/-- C2 amended: any event type other than payment_intent.succeeded is a
no-op; a payload transaction id that is absent, empty, or matches no
stored payment is a no-op; on a succeeded event whose non-empty
transaction id matches a stored payment, that payment status becomes
completed and the owning enrollment row, when it exists, has its
payment_status set to paid. -/
theorem c2_webhook_amended (db : DB) (event_type : String) (tid : Option String) :
    (event_type ≠ "payment_intent.succeeded" →
      payment_service.process_payment_webhook db event_type tid = (none, db)) ∧
    ((tid = none ∨ tid = some "" ∨
        (∀ t, tid = some t → crud_payment.get_by_transaction_id db t = none)) →
      payment_service.process_payment_webhook db event_type tid = (none, db)) ∧
    (∀ t p, tid = some t → t ≠ "" →
      crud_payment.get_by_transaction_id db t = some p →
      crud_payment.get db p.id = some p →
      event_type = "payment_intent.succeeded" →
      (payment_service.process_payment_webhook db event_type tid).1 =
        some { p with status := PaymentStatus.completed } ∧
      crud_payment.get (payment_service.process_payment_webhook db event_type tid).2 p.id =
        some { p with status := PaymentStatus.completed } ∧
      (∀ e, crud_enrollment.get db p.enrollment_id = some e →
        crud_enrollment.get (payment_service.process_payment_webhook db event_type tid).2
          p.enrollment_id = some { e with payment_status := EnrollPayStatus.paid })) := by
  refine ⟨?_, ?_, ?_⟩
  · intro hev
    unfold payment_service.process_payment_webhook
    have : (event_type != "payment_intent.succeeded") = true := by simpa using hev
    rw [if_pos this]
  · intro habs
    unfold payment_service.process_payment_webhook
    by_cases hev : (event_type != "payment_intent.succeeded") = true
    · rw [if_pos hev]
    · rw [if_neg hev]
      rcases habs with h1 | h1 | h1
      · rw [h1]
      · rw [h1]
        rfl
      · cases tid with
        | none => rfl
        | some t =>
          dsimp only
          by_cases ht : (t == "") = true
          · rw [if_pos ht]
          · rw [if_neg ht, h1 t rfl]
  · intro t p htid ht hfind hget hev
    subst htid
    subst hev
    unfold payment_service.process_payment_webhook
    have hne : (("payment_intent.succeeded" : String) != "payment_intent.succeeded") = false := by
      simp
    rw [if_neg (by simp [hne])]
    dsimp only
    rw [if_neg (by simpa using ht), hfind]
    dsimp only
    have hget1 : crud_payment.get (crud_payment.update_status db p.id .completed) p.id =
        some { p with status := .completed } :=
      get_payment_update_status db p.id .completed p hget
    have henr1 : ∀ x, crud_enrollment.get (crud_payment.update_status db p.id .completed) x =
        crud_enrollment.get db x := by
      intro x
      rfl
    refine ⟨?_, ?_, ?_⟩
    · cases hcase : crud_enrollment.get (crud_payment.update_status db p.id .completed)
        p.enrollment_id <;> simp [hcase]
    · cases hcase : crud_enrollment.get (crud_payment.update_status db p.id .completed)
        p.enrollment_id with
      | none => simpa [hcase] using hget1
      | some e =>
        have : crud_payment.get (crud_enrollment.update_payment_status
            (crud_payment.update_status db p.id .completed) e.id .paid) p.id =
            some { p with status := .completed } := hget1
        simpa [hcase] using this
    · intro e he
      have he1 : crud_enrollment.get (crud_payment.update_status db p.id .completed)
          p.enrollment_id = some e := by rw [henr1]; exact he
      rw [he1]
      dsimp only
      have heid : e.id = p.enrollment_id := by
        have := List.find?_some he1
        simpa using this
      conv_lhs => rw [heid]
      exact get_enrollment_update_payment_status
        (crud_payment.update_status db p.id .completed) p.enrollment_id .paid e he1

/-- Witness for C2 amended: a succeeded event for stored intent pi_1
completes payment 1 and marks enrollment 1 paid. -/
theorem c2_webhook_amended_witness :
    crud_payment.get_by_transaction_id c2wdb "pi_1" = some c2wpay ∧
    crud_payment.get c2wdb c2wpay.id = some c2wpay ∧
    (payment_service.process_payment_webhook c2wdb "payment_intent.succeeded" (some "pi_1")).1 =
      some { c2wpay with status := PaymentStatus.completed } ∧
    crud_enrollment.get (payment_service.process_payment_webhook c2wdb
        "payment_intent.succeeded" (some "pi_1")).2 c2wpay.enrollment_id =
      some { c2wenr with payment_status := EnrollPayStatus.paid } :=
  have h := (c2_webhook_amended c2wdb "payment_intent.succeeded" (some "pi_1")).2.2
    "pi_1" c2wpay rfl (by decide) rfl rfl rfl
  ⟨rfl, rfl, h.1, h.2.2 c2wenr rfl⟩

/-- C3 counterexample: a completed payment with no transaction id. Even
with a gateway that would succeed, refund_payment raises Validation with
the transaction-id message instead of refunding, so the gateway-success
half of the claim fails on this payment. -/
theorem c3_refund_counterexample :
    crud_payment.get c3db 1 = some c3pay ∧
    c3pay.status = PaymentStatus.completed ∧
    payment_service.refund_payment c3db 1 (fun _ => Except.ok ()) =
      (Except.error (AppError.validation "Payment has no transaction ID"), c3db) :=
  ⟨rfl, rfl, rfl⟩

/-- C3 amended: a payment that is not completed is rejected with the
fixed message and no mutation; a completed payment with an absent or
empty transaction id is rejected with the transaction-id message and no
mutation, the gateway never consulted; a completed payment with a
non-empty transaction id is refunded on gateway success, payment status
to refunded and owning enrollment payment_status to refunded, while a
gateway failure raises Validation and mutates nothing. -/
theorem c3_refund_amended (db : DB) (pid : Nat) (p : Payment)
    (gateway : String → Except String Unit)
    (hp : crud_payment.get db pid = some p) :
    (p.status ≠ PaymentStatus.completed →
      payment_service.refund_payment db pid gateway =
        (.error (.validation "Only completed payments can be refunded"), db)) ∧
    (p.status = PaymentStatus.completed →
      (p.transaction_id = none ∨ p.transaction_id = some "") →
      payment_service.refund_payment db pid gateway =
        (.error (.validation "Payment has no transaction ID"), db)) ∧
    (∀ t, p.status = PaymentStatus.completed → p.transaction_id = some t → t ≠ "" →
      ((∀ msg, gateway t = .error msg →
        payment_service.refund_payment db pid gateway =
          (.error (.validation ("Refund failed: " ++ msg)), db)) ∧
       (gateway t = .ok () →
        (payment_service.refund_payment db pid gateway).1 =
          .ok { p with status := PaymentStatus.refunded } ∧
        crud_payment.get (payment_service.refund_payment db pid gateway).2 pid =
          some { p with status := PaymentStatus.refunded } ∧
        (∀ e, crud_enrollment.get db p.enrollment_id = some e →
          crud_enrollment.get (payment_service.refund_payment db pid gateway).2
            p.enrollment_id = some { e with payment_status := EnrollPayStatus.refunded })))) := by
  refine ⟨?_, ?_, ?_⟩
  · intro hst
    unfold payment_service.refund_payment
    rw [hp]
    dsimp only
    rw [if_pos (by simpa using hst)]
  · intro hst habs
    unfold payment_service.refund_payment
    rw [hp]
    dsimp only
    rw [if_neg (by simp [hst])]
    rcases habs with h1 | h1 <;> rw [h1]
    rfl
  · intro t hst htx hne
    unfold payment_service.refund_payment
    rw [hp]
    dsimp only
    rw [if_neg (by simp [hst]), htx]
    dsimp only
    rw [if_neg (by simpa using hne)]
    constructor
    · intro msg hgw
      rw [hgw]
    · intro hgw
      rw [hgw]
      dsimp only
      have hget1 : crud_payment.get (crud_payment.update_status db pid .refunded) pid =
          some { p with status := .refunded } :=
        get_payment_update_status db pid .refunded p hp
      rw [htx] at hget1
      refine ⟨?_, ?_, ?_⟩
      · cases hcase : crud_enrollment.get (crud_payment.update_status db pid .refunded)
          p.enrollment_id <;> simp [hcase]
      · cases hcase : crud_enrollment.get (crud_payment.update_status db pid .refunded)
          p.enrollment_id with
        | none => simpa [hcase] using hget1
        | some e =>
          have hh : crud_payment.get (crud_enrollment.update_payment_status
              (crud_payment.update_status db pid .refunded) e.id .refunded) pid =
              some { id := p.id, enrollment_id := p.enrollment_id, amount := p.amount,
                     transaction_id := some t, status := PaymentStatus.refunded } := hget1
          simpa [hcase] using hh
      · intro e he
        have he1 : crud_enrollment.get (crud_payment.update_status db pid .refunded)
            p.enrollment_id = some e := he
        rw [he1]
        dsimp only
        have heid : e.id = p.enrollment_id := by
          have := List.find?_some he1
          simpa using this
        conv_lhs => rw [heid]
        exact get_enrollment_update_payment_status
          (crud_payment.update_status db pid .refunded) p.enrollment_id .refunded e he1

/-- Witness for C3 amended: refunding completed payment 1 with intent
pi_9: gateway success refunds it and marks enrollment 1 refunded; a
pending payment in the same position is rejected with the fixed message. -/
theorem c3_refund_amended_witness :
    crud_payment.get c3wdb 1 = some c3wpay ∧
    (payment_service.refund_payment c3wdb 1 (fun _ => Except.ok ())).1 =
      .ok { c3wpay with status := PaymentStatus.refunded } ∧
    crud_enrollment.get (payment_service.refund_payment c3wdb 1
        (fun _ => Except.ok ())).2 c3wpay.enrollment_id =
      some { c3wenr with payment_status := EnrollPayStatus.refunded } ∧
    payment_service.refund_payment c3wdb 1 (fun _ => Except.error "card network declined") =
      (.error (.validation "Refund failed: card network declined"), c3wdb) :=
  have hok := ((c3_refund_amended c3wdb 1 c3wpay (fun _ => Except.ok ()) rfl).2.2
    "pi_9" rfl rfl (by decide)).2 rfl
  have herr := ((c3_refund_amended c3wdb 1 c3wpay
    (fun _ => Except.error "card network declined") rfl).2.2
    "pi_9" rfl rfl (by decide)).1 "card network declined" rfl
  ⟨rfl, hok.1, hok.2.2 c3wenr rfl, herr⟩

/-- C9: create_payment(enrollment_id, amount) rejects amount ≤ 0 with a
validation failure before the service runs; with a positive amount it
raises NotFound when the enrollment is missing, and otherwise inserts a
payment row whose status is pending. -/
theorem c9_create_payment (db : DB) (enrollment_id : Nat) (amount : Rat) :
    (amount ≤ 0 →
      payment_service.create_payment_checked db (mkPaymentCreate enrollment_id amount) =
        (.error (.validation "Amount must be positive"), db)) ∧
    (0 < amount → crud_enrollment.get db enrollment_id = none →
      payment_service.create_payment_checked db (mkPaymentCreate enrollment_id amount) =
        (.error (.notFound "Enrollment not found"), db)) ∧
    (0 < amount → ∀ e, crud_enrollment.get db enrollment_id = some e →
      payment_service.create_payment_checked db (mkPaymentCreate enrollment_id amount) =
        (.ok { id := db.next_payment_id, enrollment_id := enrollment_id, amount := amount,
               transaction_id := none, status := PaymentStatus.pending },
         { db with
            payments := db.payments ++
              [{ id := db.next_payment_id, enrollment_id := enrollment_id, amount := amount,
                 transaction_id := none, status := PaymentStatus.pending }]
            next_payment_id := db.next_payment_id + 1 })) := by
  refine ⟨?_, ?_, ?_⟩
  · intro h
    unfold payment_service.create_payment_checked payment_create_validate
    rw [if_pos (by simpa [mkPaymentCreate] using h)]
  · intro h hnone
    unfold payment_service.create_payment_checked payment_create_validate
    rw [if_neg (by simpa [mkPaymentCreate] using not_le.mpr h)]
    unfold payment_service.create_payment
    dsimp only [mkPaymentCreate]
    rw [hnone]
  · intro h e he
    unfold payment_service.create_payment_checked payment_create_validate
    rw [if_neg (by simpa [mkPaymentCreate] using not_le.mpr h)]
    unfold payment_service.create_payment
    dsimp only [mkPaymentCreate]
    rw [he]
    rfl

/-- Witness for C9: in c9db a negative amount is rejected, a missing
enrollment raises NotFound, and a valid request creates pending payment 1. -/
theorem c9_create_payment_witness :
    (-5 : Rat) ≤ 0 ∧ (0 : Rat) < 100 ∧
    payment_service.create_payment_checked c9db (mkPaymentCreate 1 (-5)) =
      (.error (.validation "Amount must be positive"), c9db) ∧
    crud_enrollment.get c9db 2 = none ∧
    payment_service.create_payment_checked c9db (mkPaymentCreate 2 100) =
      (.error (.notFound "Enrollment not found"), c9db) ∧
    (payment_service.create_payment_checked c9db (mkPaymentCreate 1 100)).1 =
      .ok { id := 1, enrollment_id := 1, amount := 100, transaction_id := none,
            status := PaymentStatus.pending } :=
  ⟨by norm_num, by norm_num,
   (c9_create_payment c9db 1 (-5)).1 (by norm_num),
   rfl,
   (c9_create_payment c9db 2 100).2.1 (by norm_num) rfl,
   congrArg Prod.fst ((c9_create_payment c9db 1 100).2.2 (by norm_num)
     { id := 1, student_id := 1, course_id := 1 } rfl)⟩

/-- C1 counterexample: in c1db course 1 is active with stored capacity 1
and one pending enrollment, so the pending/approved count (1) is ≥ the
capacity column (1); student 2 is not enrolled, yet create_enrollment
succeeds instead of failing with Validation, because the code only tests
capacity ≤ 0. -/
theorem c1_capacity_counterexample :
    crud_course.get c1db 1 = some c1course ∧
    c1course.is_active = true ∧
    c1course.capacity ≤ (pending_or_approved_count c1db 1 : Int) ∧
    crud_enrollment.check_student_enrolled c1db 2 1 = false ∧
    isOkResult (enrollment_service.create_enrollment c1db (mkEnrollmentCreate 2 1)).1 = true :=
  ⟨rfl, rfl, by decide, rfl, rfl⟩

/-- C1 amended: for a call that passes the student, activity and
duplicate checks, create_enrollment fails with Validation (message
Course is full) exactly when the stored course.capacity column is ≤ 0;
the capacity column is a counter decremented on each accepted enrollment,
not a comparison against the pending/approved enrollment count. -/
theorem c1_capacity_amended (db : DB) (obj : EnrollmentCreate)
    (student : User) (course : Course)
    (hs : crud_user.get db obj.student_id = some student)
    (hrole : crud_user.is_student student = true)
    (hc : crud_course.get db obj.course_id = some course)
    (hact : course.is_active = true)
    (hne : crud_enrollment.check_student_enrolled db obj.student_id obj.course_id = false) :
    enrollment_service.create_enrollment db obj =
      (.error (.validation "Course is full"), db) ↔ course.capacity ≤ 0 := by
  unfold enrollment_service.create_enrollment
  rw [hs]
  dsimp only
  rw [hrole, if_neg (by simp), hc]
  dsimp only
  rw [hact, if_neg (by simp), hne, if_neg (by simp)]
  by_cases hcap : course.capacity ≤ 0
  · simp [hcap]
  · simp [hcap]

/-- Witness for C1 amended: enrolling student 1 in full course 7. -/
theorem c1_capacity_amended_witness :
    crud_user.get c1wdb 1 = some { id := 1, role := UserRole.student } ∧
    crud_user.is_student { id := 1, role := UserRole.student } = true ∧
    crud_course.get c1wdb 7 = some c1wcourse ∧
    c1wcourse.is_active = true ∧
    crud_enrollment.check_student_enrolled c1wdb 1 7 = false ∧
    (enrollment_service.create_enrollment c1wdb (mkEnrollmentCreate 1 7) =
      (.error (.validation "Course is full"), c1wdb) ↔ c1wcourse.capacity ≤ 0) :=
  ⟨rfl, rfl, rfl, rfl, rfl,
   c1_capacity_amended c1wdb (mkEnrollmentCreate 1 7) { id := 1, role := UserRole.student }
     c1wcourse rfl rfl rfl rfl rfl⟩

/-- C5: every successful create_enrollment(student_id, course_id) call
appends an enrollment whose status and payment_status are pending and
decrements the stored course capacity by exactly one. -/
theorem c5_create_enrollment_success (db : DB) (sid cid : Nat)
    (e : Enrollment) (db2 : DB)
    (h : enrollment_service.create_enrollment db (mkEnrollmentCreate sid cid) = (.ok e, db2)) :
    e.status = EnrollmentStatus.pending ∧
    e.payment_status = EnrollPayStatus.pending ∧
    db2.enrollments = db.enrollments ++ [e] ∧
    (∀ c, crud_course.get db cid = some c →
      crud_course.get db2 cid = some { c with capacity := c.capacity - 1 }) := by
  unfold enrollment_service.create_enrollment at h
  split at h
  · simp at h
  · split at h
    · simp at h
    · split at h
      · simp at h
      · split at h
        · simp at h
        · split at h
          · simp at h
          · split at h
            · simp at h
            · rename_i student hstu hrole course hcourse hact hne hcap
              rw [Prod.mk.injEq] at h
              obtain ⟨h1, h2⟩ := h
              rw [Except.ok.injEq] at h1
              subst h1
              subst h2
              refine ⟨rfl, rfl, ?_, ?_⟩
              · rw [update_capacity_enrollments]
                rfl
              · intro c hc
                have hcc : c = course := by
                  rw [show (mkEnrollmentCreate sid cid).course_id = cid from rfl] at hcourse
                  rw [hcourse] at hc
                  exact (Option.some.inj hc).symm
                subst hcc
                have hget : crud_course.get
                    ((crud_enrollment.create db (mkEnrollmentCreate sid cid)).2)
                    (mkEnrollmentCreate sid cid).course_id = some c := hcourse
                have := get_course_update_capacity
                  ((crud_enrollment.create db (mkEnrollmentCreate sid cid)).2)
                  (mkEnrollmentCreate sid cid).course_id (-1) c hget
                have hmax : (0 : Int) ⊔ (c.capacity + -1) = c.capacity - 1 := by
                  rw [not_le] at hcap
                  omega
                rw [hmax] at this
                exact this

/-- Witness for C5: enrolling student 1 in course 1 of c5db. -/
theorem c5_create_enrollment_success_witness :
    enrollment_service.create_enrollment c5db (mkEnrollmentCreate 1 1) = (.ok c5e, c5db2) ∧
    c5e.status = EnrollmentStatus.pending ∧
    c5e.payment_status = EnrollPayStatus.pending ∧
    c5db2.enrollments = c5db.enrollments ++ [c5e] ∧
    crud_course.get c5db2 1 = some { c5course with capacity := c5course.capacity - 1 } :=
  have h : enrollment_service.create_enrollment c5db (mkEnrollmentCreate 1 1) =
      (.ok c5e, c5db2) := by rfl
  have hc := c5_create_enrollment_success c5db 1 1 c5e c5db2 h
  ⟨h, hc.1, hc.2.1, hc.2.2.1, hc.2.2.2 c5course rfl⟩

/-- C7: when the student and the course exist and an enrollment for the
pair already exists in any status, create_enrollment raises a Validation
error and leaves the store unchanged, and every successful creation
preserves the at-most-one-enrollment-per-pair invariant. -/
theorem c7_duplicate_enrollment (db : DB) (sid cid : Nat)
    (hu : (crud_user.get db sid).isSome = true)
    (hc : (crud_course.get db cid).isSome = true)
    (he : crud_enrollment.check_student_enrolled db sid cid = true) :
    isValidation (enrollment_service.create_enrollment db (mkEnrollmentCreate sid cid)).1 = true ∧
    (enrollment_service.create_enrollment db (mkEnrollmentCreate sid cid)).2 = db ∧
    (∀ (obj : EnrollmentCreate) (e : Enrollment) (db2 : DB),
      enrollment_service.create_enrollment db obj = (.ok e, db2) →
      at_most_one_per_pair db → at_most_one_per_pair db2) := by
  have hboth : isValidation (enrollment_service.create_enrollment db
      (mkEnrollmentCreate sid cid)).1 = true ∧
      (enrollment_service.create_enrollment db (mkEnrollmentCreate sid cid)).2 = db := by
    obtain ⟨u, hu1⟩ := Option.isSome_iff_exists.mp hu
    obtain ⟨c, hc1⟩ := Option.isSome_iff_exists.mp hc
    unfold enrollment_service.create_enrollment
    rw [show crud_user.get db (mkEnrollmentCreate sid cid).student_id = some u from hu1]
    dsimp only
    by_cases hrole : (!crud_user.is_student u) = true
    · rw [if_pos hrole]
      exact ⟨rfl, rfl⟩
    · rw [if_neg hrole,
        show crud_course.get db (mkEnrollmentCreate sid cid).course_id = some c from hc1]
      dsimp only
      by_cases hact : (!c.is_active) = true
      · rw [if_pos hact]
        exact ⟨rfl, rfl⟩
      · rw [if_neg hact,
          show crud_enrollment.check_student_enrolled db
            (mkEnrollmentCreate sid cid).student_id
            (mkEnrollmentCreate sid cid).course_id = true from he,
          if_pos rfl]
        exact ⟨rfl, rfl⟩
  refine ⟨hboth.1, hboth.2, ?_⟩
  intro obj e db2 hok hinv
  unfold enrollment_service.create_enrollment at hok
  split at hok
  · simp at hok
  · split at hok
    · simp at hok
    · split at hok
      · simp at hok
      · split at hok
        · simp at hok
        · split at hok
          · simp at hok
          · split at hok
            · simp at hok
            · rename_i hne hcap
              rw [Prod.mk.injEq] at hok
              obtain ⟨h1, h2⟩ := hok
              subst h2
              unfold at_most_one_per_pair at hinv ⊢
              rw [update_capacity_enrollments]
              show ((crud_enrollment.create db obj).2).enrollments.Pairwise _
              have hlist : ((crud_enrollment.create db obj).2).enrollments =
                  db.enrollments ++ [(crud_enrollment.create db obj).1] := rfl
              rw [hlist, List.pairwise_append]
              refine ⟨hinv, List.pairwise_singleton _ _, ?_⟩
              intro a ha b hb
              rw [List.mem_singleton] at hb
              subst hb
              unfold crud_enrollment.check_student_enrolled at hne
              rw [Bool.not_eq_true, List.any_eq_false] at hne
              have := hne a ha
              intro hcontra
              apply this
              rw [Bool.and_eq_true, beq_iff_eq, beq_iff_eq]
              exact ⟨hcontra.1.symm ▸ rfl, hcontra.2.symm ▸ rfl⟩

/-- Witness for C7: student 1 already holds a rejected enrollment in
course 1, so a second create_enrollment for the pair is rejected with a
Validation error and the store is unchanged. -/
theorem c7_duplicate_enrollment_witness :
    (crud_user.get c7db 1).isSome = true ∧
    (crud_course.get c7db 1).isSome = true ∧
    crud_enrollment.check_student_enrolled c7db 1 1 = true ∧
    isValidation (enrollment_service.create_enrollment c7db (mkEnrollmentCreate 1 1)).1 = true ∧
    (enrollment_service.create_enrollment c7db (mkEnrollmentCreate 1 1)).2 = c7db :=
  have hthm := c7_duplicate_enrollment c7db 1 1 rfl rfl rfl
  ⟨rfl, rfl, rfl, hthm.1, hthm.2.1⟩

/-- C6: rejected and completed enrollments are terminal, with each of the
four transitions raising Validation and leaving the store unchanged; a
pending enrollment may be approved or rejected; an approved enrollment
may be completed, or cancelled to rejected with the course capacity
restored by one. -/
theorem c6_status_state_machine (db : DB) (id : Nat) (e : Enrollment)
    (h : crud_enrollment.get db id = some e) :
    ((e.status = EnrollmentStatus.rejected ∨ e.status = EnrollmentStatus.completed) →
      enrollment_service.approve_enrollment db id =
        (.error (.validation "Only pending enrollments can be approved"), db) ∧
      (∀ reason, enrollment_service.reject_enrollment db id reason =
        (.error (.validation "Only pending enrollments can be rejected"), db)) ∧
      enrollment_service.cancel_enrollment db id =
        (.error (.validation "Cannot cancel completed or rejected enrollments"), db) ∧
      enrollment_service.complete_enrollment db id =
        (.error (.validation "Only approved enrollments can be completed"), db)) ∧
    (e.status = EnrollmentStatus.pending →
      enrollment_service.approve_enrollment db id =
        (.ok { e with status := .approved }, crud_enrollment.update_status db id .approved) ∧
      enrollment_service.reject_enrollment db id none =
        (.ok { e with status := .rejected },
         crud_course.update_capacity (crud_enrollment.update_status db id .rejected)
           e.course_id 1)) ∧
    (e.status = EnrollmentStatus.approved →
      enrollment_service.complete_enrollment db id =
        (.ok { e with status := .completed }, crud_enrollment.update_status db id .completed) ∧
      enrollment_service.cancel_enrollment db id =
        (.ok { e with status := .rejected },
         crud_course.update_capacity (crud_enrollment.update_status db id .rejected)
           e.course_id 1) ∧
      (∀ c, crud_course.get db e.course_id = some c → 0 ≤ c.capacity →
        crud_course.get (enrollment_service.cancel_enrollment db id).2 e.course_id =
          some { c with capacity := c.capacity + 1 })) := by
  refine ⟨?_, ?_, ?_⟩
  · intro hterm
    have hnp : (e.status != EnrollmentStatus.pending) = true := by
      rcases hterm with h1 | h1 <;> simp [h1]
    have hna : (e.status != EnrollmentStatus.approved) = true := by
      rcases hterm with h1 | h1 <;> simp [h1]
    have hcr : (e.status == EnrollmentStatus.completed ||
        e.status == EnrollmentStatus.rejected) = true := by
      rcases hterm with h1 | h1 <;> simp [h1]
    refine ⟨?_, ?_, ?_, ?_⟩
    · unfold enrollment_service.approve_enrollment
      rw [h]
      dsimp only
      rw [if_pos hnp]
    · intro reason
      unfold enrollment_service.reject_enrollment
      rw [h]
      dsimp only
      rw [if_pos hnp]
    · unfold enrollment_service.cancel_enrollment
      rw [h]
      dsimp only
      rw [if_pos hcr]
    · unfold enrollment_service.complete_enrollment
      rw [h]
      dsimp only
      rw [if_pos hna]
  · intro hp
    constructor
    · unfold enrollment_service.approve_enrollment
      rw [h]
      dsimp only
      rw [if_neg (by simp [hp])]
    · unfold enrollment_service.reject_enrollment
      rw [h]
      dsimp only
      rw [if_neg (by simp [hp])]
  · intro ha
    have hcan : enrollment_service.cancel_enrollment db id =
        (.ok { e with status := .rejected },
         crud_course.update_capacity (crud_enrollment.update_status db id .rejected)
           e.course_id 1) := by
      unfold enrollment_service.cancel_enrollment
      rw [h]
      dsimp only
      rw [if_neg (by simp [ha])]
    refine ⟨?_, hcan, ?_⟩
    · unfold enrollment_service.complete_enrollment
      rw [h]
      dsimp only
      rw [if_neg (by simp [ha])]
    · intro c hc hnn
      rw [hcan]
      dsimp only
      have hget : crud_course.get (crud_enrollment.update_status db id .rejected)
          e.course_id = some c := hc
      have := get_course_update_capacity (crud_enrollment.update_status db id .rejected)
        e.course_id 1 c hget
      have hmax : (0 : Int) ⊔ (c.capacity + 1) = c.capacity + 1 := by omega
      rw [hmax] at this
      exact this

/-- Witness for C6: the four transitions are refused on the completed
enrollment of c6db, and cancelling the approved enrollment of c6adb
restores course 1 capacity from 3 to 4. -/
theorem c6_status_state_machine_witness :
    crud_enrollment.get c6db 1 = some c6e ∧
    (c6e.status = EnrollmentStatus.rejected ∨ c6e.status = EnrollmentStatus.completed) ∧
    enrollment_service.approve_enrollment c6db 1 =
      (.error (.validation "Only pending enrollments can be approved"), c6db) ∧
    enrollment_service.reject_enrollment c6db 1 none =
      (.error (.validation "Only pending enrollments can be rejected"), c6db) ∧
    enrollment_service.cancel_enrollment c6db 1 =
      (.error (.validation "Cannot cancel completed or rejected enrollments"), c6db) ∧
    enrollment_service.complete_enrollment c6db 1 =
      (.error (.validation "Only approved enrollments can be completed"), c6db) ∧
    crud_enrollment.get c6adb 1 = some c6ae ∧
    crud_course.get (enrollment_service.cancel_enrollment c6adb 1).2 1 =
      some { id := 1, capacity := 4 } :=
  have h1 := c6_status_state_machine c6db 1 c6e rfl
  have h2 := c6_status_state_machine c6adb 1 c6ae rfl
  have hterm := h1.1 (Or.inr rfl)
  ⟨rfl, Or.inr rfl, hterm.1, hterm.2.1 none, hterm.2.2.1, hterm.2.2.2, rfl,
   (h2.2.2 rfl).2.2 { id := 1, capacity := 3 } rfl (by decide)⟩

/-- Each capacity-touching enrollment operation keeps every stored course
capacity non-negative. -/
theorem run_op_courses_nonneg (db : DB) (op : EnrollOp) (h : courses_nonneg db) :
    courses_nonneg (run_op db op) := by
  cases op with
  | enroll sid cid =>
    show courses_nonneg (enrollment_service.create_enrollment db (mkEnrollmentCreate sid cid)).2
    unfold enrollment_service.create_enrollment
    split
    · exact h
    · split
      · exact h
      · split
        · exact h
        · split
          · exact h
          · split
            · exact h
            · split
              · exact h
              · dsimp only
                exact update_capacity_courses_nonneg _ _ _ (fun c hc => h c hc)
  | reject id r =>
    show courses_nonneg (enrollment_service.reject_enrollment db id r).2
    unfold enrollment_service.reject_enrollment
    split
    · exact h
    · split
      · exact h
      · dsimp only
        split
        · dsimp only
          exact update_capacity_courses_nonneg _ _ _ (fun c hc => h c hc)
        · split
          · dsimp only
            exact update_capacity_courses_nonneg _ _ _ (fun c hc => h c hc)
          · dsimp only
            exact update_capacity_courses_nonneg _ _ _ (fun c hc => h c hc)
  | cancel id =>
    show courses_nonneg (enrollment_service.cancel_enrollment db id).2
    unfold enrollment_service.cancel_enrollment
    split
    · exact h
    · split
      · exact h
      · dsimp only
        exact update_capacity_courses_nonneg _ _ _ (fun c hc => h c hc)

/-- C10: update_capacity stores max 0 (capacity + change), and along any
sequence of enroll, reject and cancel operations every stored course
capacity stays non-negative. -/
theorem c10_update_capacity_nonneg :
    (∀ (db : DB) (cid : Nat) (change : Int) (c : Course),
      crud_course.get db cid = some c →
      crud_course.get (crud_course.update_capacity db cid change) cid =
        some { c with capacity := max 0 (c.capacity + change) }) ∧
    (∀ (ops : List EnrollOp) (db : DB),
      courses_nonneg db → courses_nonneg (run_ops db ops)) := by
  refine ⟨get_course_update_capacity, ?_⟩
  intro ops
  induction ops with
  | nil => intro db h; exact h
  | cons op rest ih =>
    intro db h
    exact ih (run_op db op) (run_op_courses_nonneg db op h)

/-- Witness for C10: course 1 of c10db starts at capacity 3 and stays
non-negative across an enroll followed by a cancel. -/
theorem c10_update_capacity_nonneg_witness :
    crud_course.get c10db 1 = some { id := 1, capacity := 3 } ∧
    crud_course.get (crud_course.update_capacity c10db 1 (-1)) 1 =
      some { id := 1, capacity := max 0 ((3 : Int) + (-1)) } ∧
    courses_nonneg c10db ∧
    courses_nonneg (run_ops c10db c10ops) :=
  have h0 : courses_nonneg c10db := by
    intro c hc
    simp only [c10db, List.mem_singleton] at hc
    subst hc
    decide
  ⟨rfl, c10_update_capacity_nonneg.1 c10db 1 (-1) { id := 1, capacity := 3 } rfl,
   h0, c10_update_capacity_nonneg.2 c10ops c10db h0⟩
